import Mathlib

/-!
# ODPI error translation and enqueue options

A shallow embedding of `dpiError.c` (`dpiError__check`, `dpiError__getInfo`,
`dpiError__set`), of `dpiEnqOptions.c` (`dpiEnqOptions__create`,
`dpiEnqOptions__free` and the public attribute operations) and of
`dpiObjectAttr.c` (`dpiObjectAttr__allocate`, `dpiObjectAttr__free`,
`dpiObjectAttr_getInfo`), followed by theorems about them.

Conventions of the embedding

* C strings that are only stored and handed on (`action`, `fnName`,
  `encoding`) are `String`; the message buffer, whose bytes the code inspects,
  is a `List Nat` holding one entry per byte of the array, so that
  `sizeof(message)` is the length of that list.
* A pointer that may be `NULL` is an `Option`.
* Calls into the native client library are not computed: what each call
  returns and writes is given by a record `OCI`, and every call made is
  appended to a trace of `OCICall`s.
* The numbering of the error kinds, the message table, the charset constants
  and the formatting routine, which the sources take from headers that are not
  part of the embedded files, are the fields of `Platform`; the two result
  values and the statuses of the native library are fixed constants.
* Unsigned 32-bit results are reduced modulo `2 ^ 32` where the code narrows a
  wider value.
* Routines of files that are not embedded (`dpiGen.c` and others) are either
  modelled from the specification, which their comment says, or enter through
  a record of their outcomes.
-/

namespace Odpi

/-! ## Constants -/

/-- Modelled from the spec: `dpi.h` is not among the sources. Every operation
returns a two-valued result; this is the success value. -/
def DPI_SUCCESS : Int := 0

/-- Modelled from the spec: `dpi.h` is not among the sources. The failure value
of the two-valued result; callers in the sources test for it with `< 0`. -/
def DPI_FAILURE : Int := -1

/-- Status of the native client library: the call succeeded (`oci.h`). -/
def OCI_SUCCESS : Int := 0

/-- Status of the native client library: success with a warning (`oci.h`). -/
def OCI_SUCCESS_WITH_INFO : Int := 1

/-- Status of the native client library: the handle passed was invalid
(`oci.h`). -/
def OCI_INVALID_HANDLE : Int := -2

/-- An argument of the variadic tail of `dpiError__set`. -/
inductive Arg where
  | str (s : String)
  | int (i : Int)
  deriving DecidableEq, Repr

/-- What `dpiError.c` takes from `dpiImpl.h`, `dpiErrorMessages.h` and the C
library: the numbering of the internal error kinds, the table of message
formats, the charset constants, the client version the library is built for,
the byte order in which a `uint16_t` is read from the message buffer, and the
expansion of a `printf` format with its arguments. -/
structure Platform where
  DPI_ERR_NO_ERR : Int
  DPI_ERR_INVALID_HANDLE : Int
  DPI_ERR_ERR_NOT_INITIALIZED : Int
  DPI_ERR_GET_FAILED : Int
  DPI_CHARSET_ID_UTF16 : Nat
  DPI_CHARSET_NAME_UTF8 : String
  dpiErrorMessages : Int → String
  vformat : String → List Arg → List Nat
  clientAtLeast12_1 : Bool
  littleEndian : Bool

/-! ## Data model -/

/-- The `dpiErrorBuffer` structure. -/
structure dpiErrorBuffer where
  code : Int
  offset : Nat
  dpiErrorNum : Int
  fnName : String
  action : String
  encoding : String
  message : List Nat
  messageLength : Nat
  isRecoverable : Bool
  deriving DecidableEq, Repr

/-- The `dpiError` structure: the buffer it points to, the native error handle
(`none` for `NULL`), the encoding name and the charset id. -/
structure dpiError where
  buffer : dpiErrorBuffer
  handle : Option Nat
  encoding : String
  charsetId : Nat
  deriving DecidableEq, Repr

/-- The `dpiErrorInfo` structure filled by `dpiError__getInfo`. -/
structure dpiErrorInfo where
  code : Int
  offset : Nat
  message : List Nat
  messageLength : Nat
  fnName : String
  action : String
  isRecoverable : Bool
  encoding : String
  sqlState : String
  deriving DecidableEq, Repr

/-- Modelled from the spec: the generic handle header of `dpiImpl.h`, which is
not among the sources. A handle carries a reference count, an integer that is
at least 0 while the handle lives, and is destroyed when the count reaches 0. -/
structure dpiBaseType where
  refCount : Int
  destroyed : Bool
  deriving DecidableEq, Repr

/-- The fields of `dpiConn` that the embedded code reads or writes: the
generic handle header and the flag that tells the pool to drop the session. -/
structure dpiConn where
  base : dpiBaseType
  dropSession : Bool
  deriving DecidableEq, Repr

/-! ## The native client library -/

/-- The native calls the embedded code makes. -/
inductive OCICall where
  | OCIErrorGet
  | OCIAttrGet
  | OCIAttrSet
  | OCIDescriptorAlloc
  | OCIDescriptorFree
  deriving DecidableEq, Repr

/-- Outcome of the native calls: the status `OCIErrorGet` returns, the code it
writes and the bytes it writes to the start of the message buffer; the value
`OCIAttrGet` writes for `OCI_ATTR_ERROR_IS_RECOVERABLE` (`none` when it writes
nothing); the status of `OCIDescriptorAlloc` and the descriptor it stores. -/
structure OCI where
  errorGetStatus : Int
  errorGetCode : Int
  errorGetText : List Nat
  attrGetRecoverable : Option Bool
  descriptorAllocStatus : Int
  descriptorAllocHandle : Option Nat

/-! ## C library routines -/

/-- The `isspace` classification of the C locale: space, and the control
characters from horizontal tab to carriage return. -/
def isspace (c : Nat) : Bool :=
  c == 32 || (9 ≤ c && c ≤ 13)

/-- The `strlen` of a byte array: the number of bytes before the first zero
byte (the whole array when it holds no zero byte). -/
def strlen : List Nat → Nat
  | [] => 0
  | c :: rest => if c = 0 then 0 else strlen rest + 1

/-- Writing `bytes` at the start of the array `buf`, never beyond its end. -/
def writeBytes (buf bytes : List Nat) : List Nat :=
  bytes.take buf.length ++ buf.drop bytes.length

/-- The `vsnprintf` of the C library on an array `s` with `n` bytes of room,
`formatted` being the full expansion of the format: at most `n - 1` characters
of the expansion are stored, followed by a zero byte; the value returned is the
length of the full expansion. -/
def vsnprintf (s : List Nat) (n : Nat) (formatted : List Nat) : List Nat × Int :=
  if n = 0 then (s, formatted.length)
  else (writeBytes s (formatted.take (n - 1) ++ [0]), formatted.length)

/-! ## dpiError.c -/

/-- Result of `dpiError__set`: the value returned and the error structure
afterwards. -/
structure SetResult where
  ret : Int
  error : dpiError
  deriving DecidableEq, Repr

/-- The function `dpiError__set`: reset code, recoverability and offset, store
the UTF-8 encoding name, the action and the error kind, and format the message
of the error kind into the message buffer. -/
def dpiError__set (p : Platform) (error : dpiError) (action : String)
    (errorNum : Int) (varArgs : List Arg) : SetResult :=
  let b := error.buffer
  let out := vsnprintf b.message b.message.length
    (p.vformat (p.dpiErrorMessages (errorNum - p.DPI_ERR_NO_ERR)) varArgs)
  { ret := DPI_FAILURE
    error :=
      { error with
        buffer :=
          { b with
            code := 0
            isRecoverable := false
            offset := 0
            encoding := p.DPI_CHARSET_NAME_UTF8
            action := action
            dpiErrorNum := errorNum
            message := out.1
            messageLength := (out.2 % 2 ^ 32).toNat } } }

/-- The message buffer read through the `uint16_t*` cast: consecutive pairs of
bytes, combined in the byte order of the platform; `sizeof(message) / 2`
entries. -/
def utf16chars (littleEndian : Bool) : List Nat → List Nat
  | a :: b :: rest =>
    (if littleEndian then a + 256 * b else 256 * a + b) :: utf16chars littleEndian rest
  | _ => []

/-- The `for` loop of the UTF-16 branch over the code units from index `i` on,
`numChars` being the value of the variable on entry. -/
def utf16Scan : List Nat → Nat → Nat → Nat
  | [], _, numChars => numChars
  | c :: rest, i, numChars =>
    if c = 0 then numChars
    else if c > 127 ∨ isspace c = false then utf16Scan rest (i + 1) (i + 1)
    else utf16Scan rest (i + 1) numChars

/-- The `while` loop of the single-byte branch, entered with the pointer at or
after the start of the message: `ptr` is the offset of the pointer from the
start, `messageLength` the current length. The condition tests `ptr > message`
first, which fails at offset 0, and only then reads and classifies the byte at
`ptr`, the pointer being decremented after the read. -/
def trimLoop (message : List Nat) : Nat → Nat → Nat
  | 0, messageLength => messageLength
  | ptr + 1, messageLength =>
    if isspace (message.getD (ptr + 1) 0) = true then
      trimLoop message ptr (messageLength - 1)
    else messageLength

/-- The length computation of `dpiError__check` on the message buffer. In the
single-byte branch the pointer starts at `message + messageLength - 1`; for an
empty message that is before the start of the buffer, where `ptr > message`
fails at once. -/
def computeMessageLength (p : Platform) (charsetId : Nat) (message : List Nat) : Nat :=
  if charsetId = p.DPI_CHARSET_ID_UTF16 then
    (utf16Scan (utf16chars p.littleEndian message) 0 0 * 2) % 2 ^ 32
  else
    let messageLength : Nat := strlen message % 2 ^ 32
    if messageLength = 0 then messageLength
    else trimLoop message (messageLength - 1) messageLength

/-- The `switch` of `dpiError__check` over the native error code: `true` for
the codes that tell that the session is dead. -/
def isSessionDead (code : Int) : Bool :=
  match code with
  | 22 | 28 | 31 | 45 | 378 | 602 | 603 | 609 | 1012 | 1041 | 1043 | 1089
  | 1092 | 2396 | 3113 | 3114 | 3122 | 3135 | 12153 | 12537 | 12547 | 12570
  | 12583 | 27146 | 28511 => true
  | _ => false

/-- Result of `dpiError__check`: the value returned, the error structure and
the connection afterwards, and the native calls made, in order. -/
structure CheckResult where
  ret : Int
  error : dpiError
  conn : Option dpiConn
  calls : List OCICall
  deriving DecidableEq, Repr

/-- The function `dpiError__check`. -/
def dpiError__check (p : Platform) (oci : OCI) (error : dpiError) (status : Int)
    (conn : Option dpiConn) (action : String) : CheckResult :=
  -- no error has taken place
  if status = OCI_SUCCESS ∨ status = OCI_SUCCESS_WITH_INFO then
    { ret := DPI_SUCCESS, error := error, conn := conn, calls := [] }
  -- special error cases
  else if status = OCI_INVALID_HANDLE then
    let r := dpiError__set p error action p.DPI_ERR_INVALID_HANDLE [Arg.str "OCI"]
    { ret := r.ret, error := r.error, conn := conn, calls := [] }
  else if error.handle = none then
    let r := dpiError__set p error action p.DPI_ERR_ERR_NOT_INITIALIZED []
    { ret := r.ret, error := r.error, conn := conn, calls := [] }
  else
    -- fetch OCI error
    let b1 : dpiErrorBuffer :=
      { error.buffer with
        action := action
        encoding := error.encoding
        code := oci.errorGetCode
        message := writeBytes error.buffer.message oci.errorGetText }
    if oci.errorGetStatus ≠ OCI_SUCCESS then
      let r := dpiError__set p { error with buffer := b1 } action p.DPI_ERR_GET_FAILED []
      { ret := r.ret, error := r.error, conn := conn, calls := [OCICall.OCIErrorGet] }
    else
      -- determine if error is recoverable
      let recoverable : Bool :=
        if p.clientAtLeast12_1 then oci.attrGetRecoverable.getD false else false
      let calls :=
        if p.clientAtLeast12_1 then [OCICall.OCIErrorGet, OCICall.OCIAttrGet]
        else [OCICall.OCIErrorGet]
      -- determine length of message
      let b2 : dpiErrorBuffer :=
        { b1 with
          isRecoverable := recoverable
          messageLength := computeMessageLength p error.charsetId b1.message }
      -- check for errors which indicate that the session is dead
      let conn2 : Option dpiConn :=
        match conn with
        | none => none
        | some c =>
          if c.dropSession = false then
            if isSessionDead b2.code then some { c with dropSession := true } else some c
          else some c
      { ret := DPI_FAILURE, error := { error with buffer := b2 }, conn := conn2, calls := calls }

/-- Result of `dpiError__getInfo`. -/
structure GetInfoResult where
  ret : Int
  info : dpiErrorInfo
  deriving DecidableEq, Repr

/-- The `switch` of `dpiError__getInfo` that derives the SQLSTATE. -/
def sqlStateOf (code : Int) (dpiErrorNum : Int) : String :=
  match code with
  | 12154 => "42S02"
  | 22 | 378 | 602 | 603 | 604 | 609 | 1012 | 1033 | 1041 | 1043 | 1089 | 1090
  | 1092 | 3113 | 3114 | 3122 | 3135 | 12153 | 27146 | 28511 => "01002"
  | _ => if code = 0 ∧ dpiErrorNum = 0 then "00000" else "HY000"

/-- The function `dpiError__getInfo`. -/
def dpiError__getInfo (error : dpiError) : GetInfoResult :=
  { ret := DPI_FAILURE
    info :=
      { code := error.buffer.code
        offset := error.buffer.offset
        message := error.buffer.message
        messageLength := error.buffer.messageLength
        fnName := error.buffer.fnName
        action := error.buffer.action
        isRecoverable := error.buffer.isRecoverable
        encoding := error.buffer.encoding
        sqlState := sqlStateOf error.buffer.code error.buffer.dpiErrorNum } }

/-! ## dpiEnqOptions.c -/

/-- The `dpiEnqOptions` structure: the connection it points to and its native
descriptor (`none` for `NULL`). Connections are named by their address. -/
structure dpiEnqOptions where
  conn : Option Nat
  handle : Option Nat
  deriving DecidableEq, Repr

/-- The connections after a callee that was handed a pointer to the connection
at address `conn` has left `c` there (`none` when it was handed `NULL`). -/
def storeConn (heap : Nat → dpiConn) (conn : Nat) (c : Option dpiConn) : Nat → dpiConn :=
  match c with
  | some v => Function.update heap conn v
  | none => heap

/-- The kind tags of handles: the two the embedded files pass to the entry
guard and to the allocator, and those of the connection and the object type
they refer to. -/
inductive dpiHandleTypeNum where
  | DPI_HTYPE_CONN
  | DPI_HTYPE_ENQ_OPTIONS
  | DPI_HTYPE_OBJECT_ATTR
  | DPI_HTYPE_OBJECT_TYPE
  deriving DecidableEq, Repr

/-- Modelled from the spec: the generic handle of `dpiImpl.h`, which is not
among the sources, as a public operation receives it: the kind tag, the
header with the reference count, and the fields of the concrete structure. -/
structure dpiHandle (α : Type) where
  typeNum : dpiHandleTypeNum
  base : dpiBaseType
  body : α

/-- The name of a kind of handle, as it appears in messages. -/
def dpiHandleTypeNum.name : dpiHandleTypeNum → String
  | .DPI_HTYPE_CONN => "dpiConn"
  | .DPI_HTYPE_ENQ_OPTIONS => "dpiEnqOptions"
  | .DPI_HTYPE_OBJECT_ATTR => "dpiObjectAttr"
  | .DPI_HTYPE_OBJECT_TYPE => "dpiObjectType"

/-- Result of the entry guard: the value returned and the error context it
produced. -/
structure StartResult where
  ret : Int
  error : dpiError
  deriving DecidableEq, Repr

/-- Modelled from the spec: `dpiGen__startPublicFn` of `dpiGen.c`, which is not
among the sources. The entry guard of every public operation: it validates
that the handle is of the expected kind and has not been destroyed, and
produces the error context of the call, `context` being the context of the
handle's environment. For an invalid handle it fails with the invalid-handle
error, without touching the native library and without side effect on any
handle. -/
def dpiGen__startPublicFn {α : Type} (p : Platform) (handle : dpiHandle α)
    (typeNum : dpiHandleTypeNum) (fnName : String) (context : dpiError) : StartResult :=
  let fresh : dpiError := { context with buffer := { context.buffer with fnName := fnName } }
  if handle.typeNum = typeNum ∧ handle.base.destroyed = false then
    { ret := DPI_SUCCESS, error := fresh }
  else
    let r := dpiError__set p fresh "check main handle" p.DPI_ERR_INVALID_HANDLE
      [Arg.str typeNum.name]
    { ret := r.ret, error := r.error }

/-- The attributes of the enqueue options descriptor that the public
operations read or write. -/
inductive OCIAttribute where
  | OCI_ATTR_TRANSFORMATION
  | OCI_ATTR_VISIBILITY
  | OCI_ATTR_MSG_DELIVERY_MODE
  deriving DecidableEq, Repr

/-- Outcome of the native attribute calls on a descriptor, per attribute: the
status of `OCIAttrGet`, the number it writes to a numeric variable and the
text pointer and length it writes to a text variable (`none` when it writes
nothing), and the status of `OCIAttrSet`. -/
structure OCIAttrOutcome where
  getStatus : OCIAttribute → Int
  getNumber : OCIAttribute → Option Nat
  getText : OCIAttribute → Option (String × Nat)
  setStatus : OCIAttribute → Int

/-- Result of an attribute read: the value returned, the content of the output
variable, the error context, the connections afterwards and the native calls
made. -/
structure GetAttrResult (α : Type) where
  ret : Int
  value : α
  error : dpiError
  heap : Nat → dpiConn
  calls : List OCICall

/-- The function `dpiEnqOptions__getAttrValue`. `value` is the content of the
variable that `OCIAttrGet` is handed, `written` what the call writes to it. -/
def dpiEnqOptions__getAttrValue {α : Type} (p : Platform) (oci : OCI) (attrs : OCIAttrOutcome)
    (written : Option α) (heap : Nat → dpiConn) (context : dpiError)
    (options : dpiHandle dpiEnqOptions) (attributeNum : OCIAttribute) (fnName : String)
    (value : α) : GetAttrResult α :=
  let g := dpiGen__startPublicFn p options dpiHandleTypeNum.DPI_HTYPE_ENQ_OPTIONS fnName context
  if g.ret < 0 then
    { ret := DPI_FAILURE, value := value, error := g.error, heap := heap, calls := [] }
  else
    let c := dpiError__check p oci g.error (attrs.getStatus attributeNum)
      (options.body.conn.map heap) "get attribute value"
    { ret := c.ret
      value := written.getD value
      error := c.error
      heap :=
        match options.body.conn with
        | some a => storeConn heap a c.conn
        | none => heap
      calls := OCICall.OCIAttrGet :: c.calls }

/-- Result of an attribute write: the value returned, the value handed to
`OCIAttrSet` (`none` when the call is not made), the error context, the
connections afterwards and the native calls made. -/
structure SetAttrResult (α : Type) where
  ret : Int
  passed : Option α
  error : dpiError
  heap : Nat → dpiConn
  calls : List OCICall

/-- The function `dpiEnqOptions__setAttrValue`. -/
def dpiEnqOptions__setAttrValue {α : Type} (p : Platform) (oci : OCI) (attrs : OCIAttrOutcome)
    (heap : Nat → dpiConn) (context : dpiError) (options : dpiHandle dpiEnqOptions)
    (attributeNum : OCIAttribute) (fnName : String) (value : α) : SetAttrResult α :=
  let g := dpiGen__startPublicFn p options dpiHandleTypeNum.DPI_HTYPE_ENQ_OPTIONS fnName context
  if g.ret < 0 then
    { ret := DPI_FAILURE, passed := none, error := g.error, heap := heap, calls := [] }
  else
    let c := dpiError__check p oci g.error (attrs.setStatus attributeNum)
      (options.body.conn.map heap) "set attribute value"
    { ret := c.ret
      passed := some value
      error := c.error
      heap :=
        match options.body.conn with
        | some a => storeConn heap a c.conn
        | none => heap
      calls := OCICall.OCIAttrSet :: c.calls }

/-- The function `dpiEnqOptions_getTransformation`; the output is the text
pointer together with its length. -/
def dpiEnqOptions_getTransformation (p : Platform) (oci : OCI) (attrs : OCIAttrOutcome)
    (heap : Nat → dpiConn) (context : dpiError) (options : dpiHandle dpiEnqOptions)
    (value : String × Nat) : GetAttrResult (String × Nat) :=
  dpiEnqOptions__getAttrValue p oci attrs (attrs.getText OCIAttribute.OCI_ATTR_TRANSFORMATION)
    heap context options OCIAttribute.OCI_ATTR_TRANSFORMATION
    "dpiEnqOptions_getTransformation" value

/-- The function `dpiEnqOptions_getVisibility`. `ociValue` is the content of
the local variable of that name on entry, which the code does not
initialise; `value` is the content of the caller's output variable. -/
def dpiEnqOptions_getVisibility (p : Platform) (oci : OCI) (attrs : OCIAttrOutcome)
    (heap : Nat → dpiConn) (context : dpiError) (options : dpiHandle dpiEnqOptions)
    (ociValue : Nat) (value : Nat) : GetAttrResult Nat :=
  let r := dpiEnqOptions__getAttrValue p oci attrs
    (attrs.getNumber OCIAttribute.OCI_ATTR_VISIBILITY) heap context options
    OCIAttribute.OCI_ATTR_VISIBILITY "dpiEnqOptions_getVisibility" ociValue
  if r.ret < 0 then
    { ret := DPI_FAILURE, value := value, error := r.error, heap := r.heap, calls := r.calls }
  else
    { ret := DPI_SUCCESS, value := r.value, error := r.error, heap := r.heap,
      calls := r.calls }

/-- The function `dpiEnqOptions_setDeliveryMode`; the value is narrowed to 16
bits before it is handed on. -/
def dpiEnqOptions_setDeliveryMode (p : Platform) (oci : OCI) (attrs : OCIAttrOutcome)
    (heap : Nat → dpiConn) (context : dpiError) (options : dpiHandle dpiEnqOptions)
    (value : Nat) : SetAttrResult (Nat × Nat) :=
  let ociValue : Nat := value % 2 ^ 16
  dpiEnqOptions__setAttrValue p oci attrs heap context options
    OCIAttribute.OCI_ATTR_MSG_DELIVERY_MODE "dpiEnqOptions_setDeliveryMode" (ociValue, 0)

/-- The function `dpiEnqOptions_setTransformation`. -/
def dpiEnqOptions_setTransformation (p : Platform) (oci : OCI) (attrs : OCIAttrOutcome)
    (heap : Nat → dpiConn) (context : dpiError) (options : dpiHandle dpiEnqOptions)
    (value : String) (valueLength : Nat) : SetAttrResult (String × Nat) :=
  dpiEnqOptions__setAttrValue p oci attrs heap context options
    OCIAttribute.OCI_ATTR_TRANSFORMATION "dpiEnqOptions_setTransformation"
    (value, valueLength)

/-- The function `dpiEnqOptions_setVisibility`; the value is handed on as a
32-bit number. -/
def dpiEnqOptions_setVisibility (p : Platform) (oci : OCI) (attrs : OCIAttrOutcome)
    (heap : Nat → dpiConn) (context : dpiError) (options : dpiHandle dpiEnqOptions)
    (value : Nat) : SetAttrResult (Nat × Nat) :=
  let ociValue : Nat := value % 2 ^ 32
  dpiEnqOptions__setAttrValue p oci attrs heap context options
    OCIAttribute.OCI_ATTR_VISIBILITY "dpiEnqOptions_setVisibility" (ociValue, 0)

/-! ## dpiObjectAttr.c -/

/-- The fields of `dpiOracleType` that the embedded code reads. -/
structure dpiOracleType where
  oracleTypeNum : Nat
  defaultNativeTypeNum : Nat
  deriving DecidableEq, Repr

/-- The `dpiObjectAttr` structure: the object type it belongs to, its name
and the length of the name, the classification of its type, and the object
type of its values (`none` for `NULL`). -/
structure dpiObjectAttr where
  belongsToType : Option Nat
  name : Option String
  nameLength : Nat
  oracleType : Option dpiOracleType
  type : Option Nat
  deriving DecidableEq, Repr

/-- The structure `dpiGen__allocate` hands out before any field is set. -/
def dpiObjectAttr.zero : dpiObjectAttr :=
  { belongsToType := none, name := none, nameLength := 0, oracleType := none, type := none }

/-- The `dpiObjectAttrInfo` structure filled by `dpiObjectAttr_getInfo`. -/
structure dpiObjectAttrInfo where
  name : Option String
  nameLength : Nat
  oracleTypeNum : Nat
  defaultNativeTypeNum : Nat
  objectType : Option Nat
  deriving DecidableEq, Repr

/-- Result of `dpiObjectAttr_getInfo`: the value returned, the content of the
output structure, the error context, the connections afterwards and the
native calls made. -/
structure AttrInfoResult where
  ret : Int
  info : dpiObjectAttrInfo
  error : dpiError
  heap : Nat → dpiConn
  calls : List OCICall

/-- The function `dpiObjectAttr_getInfo`; `info` is the content of the
caller's structure on entry. -/
def dpiObjectAttr_getInfo (p : Platform) (heap : Nat → dpiConn) (context : dpiError)
    (attr : dpiHandle dpiObjectAttr) (info : dpiObjectAttrInfo) : AttrInfoResult :=
  let g := dpiGen__startPublicFn p attr dpiHandleTypeNum.DPI_HTYPE_OBJECT_ATTR
    "dpiObjectAttr_getInfo" context
  if g.ret < 0 then
    { ret := DPI_FAILURE, info := info, error := g.error, heap := heap, calls := [] }
  else
    let info1 : dpiObjectAttrInfo :=
      { info with name := attr.body.name, nameLength := attr.body.nameLength }
    let info2 : dpiObjectAttrInfo :=
      match attr.body.oracleType with
      | some t =>
        { info1 with
          oracleTypeNum := t.oracleTypeNum
          defaultNativeTypeNum := t.defaultNativeTypeNum }
      | none => { info1 with oracleTypeNum := 0, defaultNativeTypeNum := 0 }
    { ret := DPI_SUCCESS
      info := { info2 with objectType := attr.body.type }
      error := g.error, heap := heap, calls := [] }

/-! ## A platform and inputs for worked examples -/

/-- Expansion of a format that uses only the `%s` and `%%` directives. -/
def expandFormat : List Char → List Arg → List Char
  | '%' :: 's' :: rest, Arg.str s :: args => s.toList ++ expandFormat rest args
  | '%' :: '%' :: rest, args => '%' :: expandFormat rest args
  | c :: rest, args => c :: expandFormat rest args
  | [], _ => []

/-- A platform for worked examples: error kinds numbered from 1000, a message
table with the invalid-handle message at index 2, charset id 1000 for UTF-16,
a client of version 12.1 or later, and a little-endian machine. -/
def examplePlatform : Platform :=
  { DPI_ERR_NO_ERR := 1000
    DPI_ERR_INVALID_HANDLE := 1002
    DPI_ERR_ERR_NOT_INITIALIZED := 1003
    DPI_ERR_GET_FAILED := 1004
    DPI_CHARSET_ID_UTF16 := 1000
    DPI_CHARSET_NAME_UTF8 := "UTF-8"
    dpiErrorMessages := fun i =>
      if i = 2 then "invalid %s handle"
      else if i = 3 then "not initialized"
      else if i = 4 then "get failed"
      else "%s"
    vformat := fun fmt args => (expandFormat fmt.toList args).map Char.toNat
    clientAtLeast12_1 := true
    littleEndian := true }

/-- An error buffer in its zero-initialised state, with a message array of
`size` bytes. -/
def emptyBuffer (size : Nat) : dpiErrorBuffer :=
  { code := 0
    offset := 0
    dpiErrorNum := 0
    fnName := ""
    action := ""
    encoding := ""
    message := List.replicate size 0
    messageLength := 0
    isRecoverable := false }

/-- An error structure with a native error handle, the given charset id and a
zero-initialised buffer of `size` message bytes. -/
def exampleError (charsetId size : Nat) : dpiError :=
  { buffer := emptyBuffer size
    handle := some 1
    encoding := "ASCII"
    charsetId := charsetId }

/-- A native library whose error query succeeds with the given code and
message bytes. -/
def exampleOCI (code : Int) (text : List Nat) : OCI :=
  { errorGetStatus := 0
    errorGetCode := code
    errorGetText := text
    attrGetRecoverable := some false
    descriptorAllocStatus := 0
    descriptorAllocHandle := some 7 }

/-- A live connection with one reference that is not flagged. -/
def exampleConn : dpiConn :=
  { base := { refCount := 1, destroyed := false }
    dropSession := false }

/-- The error structure a failing call leaves behind: `dpiError__check` after a
native error with code 3113. -/
def priorFailure : dpiError :=
  (dpiError__check examplePlatform (exampleOCI 3113 [69, 79, 70, 0])
    (exampleError 873 16) (-1) none "execute").error

/-- A native library whose error query itself fails, after writing the given
code. -/
def failingOCI (code : Int) : OCI :=
  { errorGetStatus := -1
    errorGetCode := code
    errorGetText := [63, 0]
    attrGetRecoverable := none
    descriptorAllocStatus := -1
    descriptorAllocHandle := none }

/-- A string argument of `n` characters. -/
def longArg (n : Nat) : String :=
  String.mk (List.replicate n 'x')

/-- Connections for worked examples: at every address a live connection with
one reference that is not flagged. -/
def exampleHeap : Nat → dpiConn :=
  fun _ => exampleConn

/-- An enqueue options handle that has been destroyed: its count is 0 and it
still points to the connection at address 5. -/
def staleOptions : dpiHandle dpiEnqOptions :=
  { typeNum := dpiHandleTypeNum.DPI_HTYPE_ENQ_OPTIONS
    base := { refCount := 0, destroyed := true }
    body := { conn := some 5, handle := some 7 } }

/-- A live handle of the wrong kind, passed where an object attribute is
expected. -/
def wrongKindAttr : dpiHandle dpiObjectAttr :=
  { typeNum := dpiHandleTypeNum.DPI_HTYPE_OBJECT_TYPE
    base := { refCount := 1, destroyed := false }
    body := dpiObjectAttr.zero }

/-- Native attribute calls that would succeed and write the number 2 or the
text "T". -/
def exampleAttrs : OCIAttrOutcome :=
  { getStatus := fun _ => 0
    getNumber := fun _ => some 2
    getText := fun _ => some ("T", 1)
    setStatus := fun _ => 0 }

/-- An output structure of the caller with recognisable content. -/
def exampleInfo : dpiObjectAttrInfo :=
  { name := some "before", nameLength := 6, oracleTypeNum := 9, defaultNativeTypeNum := 9,
    objectType := some 3 }

/-- The `switch` over the native code answers `true` exactly on the 25 listed
codes. -/
theorem isSessionDead_iff (code : Int) :
    isSessionDead code = true ↔
      code ∈ ([22, 28, 31, 45, 378, 602, 603, 609, 1012, 1041, 1043, 1089, 1092, 2396,
        3113, 3114, 3122, 3135, 12153, 12537, 12547, 12570, 12583, 27146, 28511] : List Int) := by
  unfold isSessionDead
  split <;> simp_all

/-- C1: on the native-error path (non-null error handle, status neither a
success status nor the invalid-handle sentinel, error query successful with
code `c`) the supplied connection's `dropSession` flag afterwards is the flag
before OR-ed with "`c` is one of the 25 session-fatal codes"; so 3113 sets a
clear flag, 904 leaves it clear, and a set flag stays set. -/
theorem dpiError__check_dropSession (p : Platform) (oci : OCI) (error : dpiError)
    (status : Int) (c : dpiConn) (action : String)
    (hhandle : error.handle ≠ none)
    (hs : status ≠ OCI_SUCCESS) (hi : status ≠ OCI_SUCCESS_WITH_INFO)
    (hv : status ≠ OCI_INVALID_HANDLE)
    (hget : oci.errorGetStatus = OCI_SUCCESS) :
    ∃ c', (dpiError__check p oci error status (some c) action).conn = some c' ∧
      c'.dropSession = (c.dropSession || decide (oci.errorGetCode ∈
        ([22, 28, 31, 45, 378, 602, 603, 609, 1012, 1041, 1043, 1089, 1092, 2396,
          3113, 3114, 3122, 3135, 12153, 12537, 12547, 12570, 12583, 27146, 28511] :
          List Int))) ∧
      (c.dropSession = false → oci.errorGetCode = 3113 → c'.dropSession = true) ∧
      (c.dropSession = false → oci.errorGetCode = 904 → c'.dropSession = false) ∧
      (c.dropSession = true → c'.dropSession = true) := by
  have hdead := isSessionDead_iff oci.errorGetCode
  cases hd : c.dropSession <;> cases hk : isSessionDead oci.errorGetCode
  · have hmem := (not_congr hdead).mp (by simp [hk])
    refine ⟨c, ?_, ?_, ?_, ?_, ?_⟩
    · simp [dpiError__check, hhandle, hs, hi, hv, hget, hd, hk]
    · simp only [hd, Bool.false_or]
      exact (decide_eq_false hmem).symm
    · intro _ h3; rw [h3] at hmem; exact absurd (by decide) hmem
    · intro _ _; exact hd
    · intro h; exact absurd h (by simp)
  · have hmem := hdead.mp hk
    refine ⟨{ c with dropSession := true }, ?_, ?_, ?_, ?_, ?_⟩
    · simp [dpiError__check, hhandle, hs, hi, hv, hget, hd, hk]
    · simp only [hd, Bool.false_or]
      exact (decide_eq_true hmem).symm
    · intro _ _; rfl
    · intro _ h9; rw [h9] at hmem; exact absurd hmem (by decide)
    · intro _; rfl
  · refine ⟨c, ?_, ?_, ?_, ?_, ?_⟩
    · simp [dpiError__check, hhandle, hs, hi, hv, hget, hd]
    · simp [hd]
    · intro h; exact absurd h (by simp)
    · intro h; exact absurd h (by simp)
    · intro _; exact hd
  · refine ⟨c, ?_, ?_, ?_, ?_, ?_⟩
    · simp [dpiError__check, hhandle, hs, hi, hv, hget, hd]
    · simp [hd]
    · intro h; exact absurd h (by simp)
    · intro h; exact absurd h (by simp)
    · intro _; exact hd

/-- Witness of C1: a native error with code 3113 on a connection that is not
flagged. -/
theorem dpiError__check_dropSession_witness :
    (exampleError 873 16).handle ≠ none ∧ (-1 : Int) ≠ OCI_SUCCESS ∧
      (-1 : Int) ≠ OCI_SUCCESS_WITH_INFO ∧ (-1 : Int) ≠ OCI_INVALID_HANDLE ∧
      (exampleOCI 3113 [69, 79, 70, 0]).errorGetStatus = OCI_SUCCESS ∧
      ∃ c', (dpiError__check examplePlatform (exampleOCI 3113 [69, 79, 70, 0])
          (exampleError 873 16) (-1) (some exampleConn) "execute").conn = some c' ∧
        c'.dropSession = true :=
  ⟨by decide, by decide, by decide, by decide, by decide,
    (dpiError__check_dropSession examplePlatform (exampleOCI 3113 [69, 79, 70, 0])
      (exampleError 873 16) (-1) exampleConn "execute"
      (by decide) (by decide) (by decide) (by decide) (by decide)).elim
      fun c' h => ⟨c', h.1, h.2.2.1 (by decide) (by decide)⟩⟩

/-- C2: the SQLSTATE that `dpiError__getInfo` reports is a function of the
buffer's `code` and `dpiErrorNum` alone: "42S02" for 12154, "01002" for the 20
listed codes, "00000" for code 0 with `dpiErrorNum` 0, and "HY000" for every
other input. -/
theorem dpiError__getInfo_sqlState (error : dpiError) :
    (dpiError__getInfo error).info.sqlState =
      if error.buffer.code = 12154 then "42S02"
      else if error.buffer.code ∈ ([22, 378, 602, 603, 604, 609, 1012, 1033, 1041, 1043,
        1089, 1090, 1092, 3113, 3114, 3122, 3135, 12153, 27146, 28511] : List Int) then "01002"
      else if error.buffer.code = 0 ∧ error.buffer.dpiErrorNum = 0 then "00000"
      else "HY000" := by
  show sqlStateOf error.buffer.code error.buffer.dpiErrorNum = _
  unfold sqlStateOf
  split <;> simp_all

/-- Writing into the array leaves its size unchanged. -/
theorem writeBytes_length (buf bytes : List Nat) :
    (writeBytes buf bytes).length = buf.length := by
  simp [writeBytes]; omega

/-- The 16-bit view has at most half as many entries as the array has bytes. -/
theorem utf16chars_length (le : Bool) :
    ∀ m : List Nat, 2 * (utf16chars le m).length ≤ m.length
  | [] => by simp [utf16chars]
  | [_] => by simp [utf16chars]
  | _ :: _ :: rest => by
    have ih := utf16chars_length le rest
    simp only [utf16chars, List.length_cons]
    omega

/-- The loop only depends on the code units before the first zero unit. -/
theorem utf16Scan_takeWhile : ∀ (units : List Nat) (i n : Nat),
    utf16Scan units i n = utf16Scan (units.takeWhile (· != 0)) i n
  | [], _, _ => by simp
  | c :: rest, i, n => by
    by_cases hc : c = 0
    · simp [hc, utf16Scan]
    · have h1 := utf16Scan_takeWhile rest (i + 1) (i + 1)
      have h2 := utf16Scan_takeWhile rest (i + 1) n
      have htw : (c :: rest).takeWhile (· != 0) = c :: rest.takeWhile (· != 0) := by
        simp [List.takeWhile_cons, hc]
      rw [htw]
      simp only [utf16Scan, hc, if_false]
      rw [← h1, ← h2]

/-- The loop from index `i` returns `n` when no unit before the first zero is
non-whitespace, and otherwise `i` plus one more than the index of the last
non-whitespace unit. -/
theorem utf16Scan_spec : ∀ (units : List Nat) (i n : Nat),
    ∃ k, utf16Scan units i n = (if k = 0 then n else i + k) ∧
      k ≤ (units.takeWhile (· != 0)).length ∧
      (∀ j, k ≤ j → j < (units.takeWhile (· != 0)).length →
        (units.takeWhile (· != 0)).getD j 0 ≤ 127 ∧
          isspace ((units.takeWhile (· != 0)).getD j 0) = true) ∧
      (0 < k → 127 < (units.takeWhile (· != 0)).getD (k - 1) 0 ∨
        isspace ((units.takeWhile (· != 0)).getD (k - 1) 0) = false)
  | [], _, _ => ⟨0, by simp [utf16Scan]⟩
  | c :: rest, i, n => by
    by_cases hc : c = 0
    · exact ⟨0, by simp [hc, utf16Scan]⟩
    · have htw : (c :: rest).takeWhile (· != 0) = c :: rest.takeWhile (· != 0) := by
        simp [List.takeWhile_cons, hc]
      rw [htw]
      by_cases hns : c > 127 ∨ isspace c = false
      · obtain ⟨k, hk, hle, hws, hlast⟩ := utf16Scan_spec rest (i + 1) (i + 1)
        refine ⟨k + 1, ?_, ?_, ?_, ?_⟩
        · simp only [utf16Scan, hc, if_false, hns, if_true, hk]
          split <;> simp <;> omega
        · simp; exact hle
        · intro j hj hlt
          obtain ⟨j', rfl⟩ : ∃ j', j = j' + 1 := ⟨j - 1, by omega⟩
          simp only [List.getD_cons_succ]
          exact hws j' (by omega) (by simpa using hlt)
        · intro _
          rcases Nat.eq_zero_or_pos k with h0 | hpos
          · subst h0; simpa using hns
          · obtain ⟨k', rfl⟩ : ∃ k', k = k' + 1 := ⟨k - 1, by omega⟩
            simpa using hlast (by omega)
      · obtain ⟨k, hk, hle, hws, hlast⟩ := utf16Scan_spec rest (i + 1) n
        have hcw : c ≤ 127 ∧ isspace c = true := by
          constructor
          · by_contra h; exact hns (Or.inl (by omega))
          · cases h : isspace c
            · exact absurd (Or.inr h) hns
            · rfl
        rcases Nat.eq_zero_or_pos k with h0 | hpos
        · subst h0
          refine ⟨0, ?_, ?_, ?_, ?_⟩
          · simp only [utf16Scan, hc, if_false, hns, hk, if_true]
          · simp
          · intro j _ hlt
            rcases Nat.eq_zero_or_pos j with hj0 | hjpos
            · subst hj0; simpa using hcw
            · obtain ⟨j', rfl⟩ : ∃ j', j = j' + 1 := ⟨j - 1, by omega⟩
              simp only [List.getD_cons_succ]
              exact hws j' (by omega) (by simpa using hlt)
          · intro h; exact absurd h (by omega)
        · obtain ⟨k', rfl⟩ : ∃ k', k = k' + 1 := ⟨k - 1, by omega⟩
          refine ⟨k' + 2, ?_, ?_, ?_, ?_⟩
          · simp only [utf16Scan, hc, if_false, hns, hk]
            simp; omega
          · simp; omega
          · intro j hj hlt
            obtain ⟨j', rfl⟩ : ∃ j', j = j' + 1 := ⟨j - 1, by omega⟩
            simp only [List.getD_cons_succ]
            exact hws j' (by omega) (by simpa using hlt)
          · intro _
            simpa using hlast (by omega)

/-- On the native-error path the message buffer holds what the error query
wrote and `messageLength` is the length computed from it. -/
theorem dpiError__check_native_buffer (p : Platform) (oci : OCI) (error : dpiError)
    (status : Int) (conn : Option dpiConn) (action : String)
    (hhandle : error.handle ≠ none)
    (hs : status ≠ OCI_SUCCESS) (hi : status ≠ OCI_SUCCESS_WITH_INFO)
    (hv : status ≠ OCI_INVALID_HANDLE)
    (hget : oci.errorGetStatus = OCI_SUCCESS) :
    (dpiError__check p oci error status conn action).error.buffer.message =
        writeBytes error.buffer.message oci.errorGetText ∧
      (dpiError__check p oci error status conn action).error.buffer.messageLength =
        computeMessageLength p error.charsetId
          (writeBytes error.buffer.message oci.errorGetText) := by
  simp [dpiError__check, hhandle, hs, hi, hv, hget]

/-- C3: on the native-error path with the UTF-16 charset, `messageLength` is
`2 * k` where, `text` being the code units of the message buffer before the
first zero unit (or up to the end of the buffer), every unit of `text` at index
`k` or later is ASCII whitespace and, when `k > 0`, the unit at index `k - 1`
is greater than 127 or not whitespace; `k` is 0 when `text` holds only
whitespace; a buffer with the same `text` gives the same length whatever
follows the first zero; and for "abc", three spaces and a zero the length
is 6. -/
theorem dpiError__check_utf16_messageLength (p : Platform) (oci : OCI) (error : dpiError)
    (status : Int) (conn : Option dpiConn) (action : String)
    (hhandle : error.handle ≠ none)
    (hs : status ≠ OCI_SUCCESS) (hi : status ≠ OCI_SUCCESS_WITH_INFO)
    (hv : status ≠ OCI_INVALID_HANDLE)
    (hget : oci.errorGetStatus = OCI_SUCCESS)
    (hcs : error.charsetId = p.DPI_CHARSET_ID_UTF16)
    (hsize : error.buffer.message.length < 2 ^ 32) :
    ∃ k units text,
      units = utf16chars p.littleEndian
        (dpiError__check p oci error status conn action).error.buffer.message ∧
      text = units.takeWhile (· != 0) ∧
      (dpiError__check p oci error status conn action).error.buffer.messageLength = 2 * k ∧
      k ≤ text.length ∧
      (∀ j, k ≤ j → j < text.length → text.getD j 0 ≤ 127 ∧ isspace (text.getD j 0) = true) ∧
      (0 < k → 127 < text.getD (k - 1) 0 ∨ isspace (text.getD (k - 1) 0) = false) ∧
      ((∀ j, j < text.length → text.getD j 0 ≤ 127 ∧ isspace (text.getD j 0) = true) → k = 0) ∧
      (∀ other : List Nat,
        (utf16chars p.littleEndian other).takeWhile (· != 0) = text →
          computeMessageLength p error.charsetId other = 2 * k) ∧
      (units.take 7 = [97, 98, 99, 32, 32, 32, 0] → 2 * k = 6) := by
  obtain ⟨hmsg, hlen⟩ :=
    dpiError__check_native_buffer p oci error status conn action hhandle hs hi hv hget
  rw [hmsg, hlen]
  generalize hm : writeBytes error.buffer.message oci.errorGetText = m
  have hmlen : m.length < 2 ^ 32 := by
    rw [← hm, writeBytes_length]; exact hsize
  obtain ⟨k, hk, hle, hws, hlast⟩ := utf16Scan_spec (utf16chars p.littleEndian m) 0 0
  have hscan : utf16Scan (utf16chars p.littleEndian m) 0 0 = k := by
    rw [hk]; split <;> omega
  have hbound : k * 2 < 2 ^ 32 := by
    have h1 := (List.takeWhile_sublist (l := utf16chars p.littleEndian m) (· != 0)).length_le
    have h2 := utf16chars_length p.littleEndian m
    omega
  refine ⟨k, utf16chars p.littleEndian m, (utf16chars p.littleEndian m).takeWhile (· != 0),
    rfl, rfl, ?_, hle, hws, hlast, ?_, ?_, ?_⟩
  · simp only [computeMessageLength, hcs, if_true, hscan]
    rw [Nat.mod_eq_of_lt hbound]; omega
  · intro hall
    by_contra hne
    have hpos : 0 < k := Nat.pos_of_ne_zero hne
    have hw := hall (k - 1) (by omega)
    rcases hlast hpos with h | h
    · omega
    · rw [hw.2] at h; exact absurd h (by simp)
  · intro other hother
    simp only [computeMessageLength, hcs, if_true]
    rw [utf16Scan_takeWhile, hother, ← utf16Scan_takeWhile, hscan,
      Nat.mod_eq_of_lt hbound]
    omega
  · intro h7
    have hsplit := List.take_append_drop 7 (utf16chars p.littleEndian m)
    rw [h7] at hsplit
    rw [← hsplit] at hscan
    simp [utf16Scan, isspace] at hscan
    omega

/-- Witness of C3: the UTF-16 message "abc", three spaces and a terminator,
written little-endian into a buffer of 16 bytes. -/
theorem dpiError__check_utf16_messageLength_witness :
    (exampleError 1000 16).handle ≠ none ∧ (-1 : Int) ≠ OCI_SUCCESS ∧
      (-1 : Int) ≠ OCI_SUCCESS_WITH_INFO ∧ (-1 : Int) ≠ OCI_INVALID_HANDLE ∧
      (exampleOCI 942 [97, 0, 98, 0, 99, 0, 32, 0, 32, 0, 32, 0, 0, 0]).errorGetStatus
        = OCI_SUCCESS ∧
      (exampleError 1000 16).charsetId = examplePlatform.DPI_CHARSET_ID_UTF16 ∧
      (exampleError 1000 16).buffer.message.length < 2 ^ 32 ∧
      ∃ k, (dpiError__check examplePlatform
          (exampleOCI 942 [97, 0, 98, 0, 99, 0, 32, 0, 32, 0, 32, 0, 0, 0])
          (exampleError 1000 16) (-1) none "execute").error.buffer.messageLength = 2 * k ∧
        2 * k = 6 :=
  ⟨by decide, by decide, by decide, by decide, by decide, by decide, by decide,
    (dpiError__check_utf16_messageLength examplePlatform
      (exampleOCI 942 [97, 0, 98, 0, 99, 0, 32, 0, 32, 0, 32, 0, 0, 0])
      (exampleError 1000 16) (-1) none "execute"
      (by decide) (by decide) (by decide) (by decide) (by decide) (by decide)
      (by decide)).elim
      fun k h => h.elim fun units h => h.elim fun _ h =>
        ⟨k, h.2.2.1, h.2.2.2.2.2.2.2.2 (by rw [h.1]; decide)⟩⟩

/-- The length of a string is at most the size of the array that holds it. -/
theorem strlen_le_length : ∀ m : List Nat, strlen m ≤ m.length
  | [] => by simp [strlen]
  | c :: rest => by
    have ih := strlen_le_length rest
    simp only [strlen, List.length_cons]
    split <;> omega

/-- The trimming loop entered at offset `ptr` with length `ptr + 1` stops at a
length of at least 1; everything it cut is whitespace, and it stopped either at
length 1 or right after a byte that is not whitespace. -/
theorem trimLoop_spec (m : List Nat) : ∀ ptr : Nat,
    1 ≤ trimLoop m ptr (ptr + 1) ∧ trimLoop m ptr (ptr + 1) ≤ ptr + 1 ∧
      (∀ j, trimLoop m ptr (ptr + 1) ≤ j → j < ptr + 1 → isspace (m.getD j 0) = true) ∧
      (1 < trimLoop m ptr (ptr + 1) →
        isspace (m.getD (trimLoop m ptr (ptr + 1) - 1) 0) = false)
  | 0 => by simp [trimLoop]; intro j h1 h2; omega
  | ptr + 1 => by
    obtain ⟨h1, h2, h3, h4⟩ := trimLoop_spec m ptr
    by_cases hw : isspace (m.getD (ptr + 1) 0) = true
    · have hstep : trimLoop m (ptr + 1) (ptr + 1 + 1) = trimLoop m ptr (ptr + 1) := by
        simp only [trimLoop, hw, if_true, Nat.add_sub_cancel]
      rw [hstep]
      refine ⟨h1, by omega, ?_, h4⟩
      intro j hj hlt
      by_cases hjp : j = ptr + 1
      · rw [hjp]; exact hw
      · exact h3 j hj (by omega)
    · have hstep : trimLoop m (ptr + 1) (ptr + 1 + 1) = ptr + 1 + 1 := by
        simp only [trimLoop, if_neg hw]
      rw [hstep]
      refine ⟨by omega, by omega, ?_, ?_⟩
      · intro j hj hlt; omega
      · intro _; simpa using hw

/-- C4: on the native-error path with a single-byte charset, `messageLength`
is at most the `strlen` of the message, every byte from `messageLength` up to
the `strlen` is whitespace, and above length 1 the byte before `messageLength`
is not whitespace; but the loop never classifies the byte at offset 0, so a
non-empty message keeps a length of at least 1 even when its first byte is
whitespace: a message of whitespace only is not trimmed to length 0. -/
theorem dpiError__check_single_byte_messageLength (p : Platform) (oci : OCI)
    (error : dpiError) (status : Int) (conn : Option dpiConn) (action : String)
    (hhandle : error.handle ≠ none)
    (hs : status ≠ OCI_SUCCESS) (hi : status ≠ OCI_SUCCESS_WITH_INFO)
    (hv : status ≠ OCI_INVALID_HANDLE)
    (hget : oci.errorGetStatus = OCI_SUCCESS)
    (hcs : error.charsetId ≠ p.DPI_CHARSET_ID_UTF16)
    (hsize : error.buffer.message.length < 2 ^ 32) :
    ∃ msg n len,
      msg = (dpiError__check p oci error status conn action).error.buffer.message ∧
      n = strlen msg ∧
      len = (dpiError__check p oci error status conn action).error.buffer.messageLength ∧
      len ≤ n ∧
      (∀ j, len ≤ j → j < n → isspace (msg.getD j 0) = true) ∧
      (1 < len → isspace (msg.getD (len - 1) 0) = false) ∧
      (n = 0 → len = 0) ∧
      (0 < n → 1 ≤ len) := by
  obtain ⟨hmsg, hlen⟩ :=
    dpiError__check_native_buffer p oci error status conn action hhandle hs hi hv hget
  rw [hmsg, hlen]
  generalize hm : writeBytes error.buffer.message oci.errorGetText = m
  have hmlen : m.length < 2 ^ 32 := by
    rw [← hm, writeBytes_length]; exact hsize
  have hn : strlen m % 2 ^ 32 = strlen m :=
    Nat.mod_eq_of_lt (Nat.lt_of_le_of_lt (strlen_le_length m) hmlen)
  refine ⟨m, strlen m, _, rfl, rfl, rfl, ?_⟩
  simp only [computeMessageLength, hcs, if_false, hn]
  by_cases h0 : strlen m = 0
  · simp [h0]
  · obtain ⟨h1, h2, h3, h4⟩ := trimLoop_spec m (strlen m - 1)
    have hsub : strlen m - 1 + 1 = strlen m := by omega
    rw [hsub] at h1 h2 h3 h4
    simp only [h0, if_false]
    exact ⟨h2, h3, h4, fun h => h.elim, fun _ => h1⟩

/-- Witness of C4: a single-byte message of two spaces; the length stays 1
although the byte at offset 0 is whitespace. -/
theorem dpiError__check_single_byte_messageLength_witness :
    (exampleError 873 16).handle ≠ none ∧ (-1 : Int) ≠ OCI_SUCCESS ∧
      (-1 : Int) ≠ OCI_SUCCESS_WITH_INFO ∧ (-1 : Int) ≠ OCI_INVALID_HANDLE ∧
      (exampleOCI 942 [32, 32, 0]).errorGetStatus = OCI_SUCCESS ∧
      (exampleError 873 16).charsetId ≠ examplePlatform.DPI_CHARSET_ID_UTF16 ∧
      (exampleError 873 16).buffer.message.length < 2 ^ 32 ∧
      (dpiError__check examplePlatform (exampleOCI 942 [32, 32, 0])
        (exampleError 873 16) (-1) none "execute").error.buffer.messageLength = 1 ∧
      isspace ((dpiError__check examplePlatform (exampleOCI 942 [32, 32, 0])
        (exampleError 873 16) (-1) none "execute").error.buffer.message.getD 0 0) = true ∧
      ∃ len, len = (dpiError__check examplePlatform (exampleOCI 942 [32, 32, 0])
        (exampleError 873 16) (-1) none "execute").error.buffer.messageLength ∧ 1 ≤ len :=
  ⟨by decide, by decide, by decide, by decide, by decide, by decide, by decide,
    by decide, by decide,
    (dpiError__check_single_byte_messageLength examplePlatform (exampleOCI 942 [32, 32, 0])
      (exampleError 873 16) (-1) none "execute"
      (by decide) (by decide) (by decide) (by decide) (by decide) (by decide)
      (by decide)).elim
      fun msg h => h.elim fun n h => h.elim fun len h =>
        ⟨len, h.2.2.1, h.2.2.2.2.2.2.2 (by rw [h.2.1, h.1]; decide)⟩⟩

/-- C5, as stated, fails: after a failing call left code 3113 in the buffer, a
check with `OCI_SUCCESS` leaves the code at 3113 and `dpiError__getInfo` still
reports "01002", not "00000". -/
theorem dpiError__check_success_clears_counterexample :
    (priorFailure.buffer.code ≠ 0 ∨ priorFailure.buffer.dpiErrorNum ≠ 0) ∧
      ¬ ((dpiError__check examplePlatform (exampleOCI 0 []) priorFailure OCI_SUCCESS none
            "fetch").error.buffer.code = 0 ∧
          (dpiError__check examplePlatform (exampleOCI 0 []) priorFailure OCI_SUCCESS none
            "fetch").error.buffer.dpiErrorNum = 0 ∧
          (dpiError__getInfo (dpiError__check examplePlatform (exampleOCI 0 []) priorFailure
            OCI_SUCCESS none "fetch").error).info.sqlState = "00000") := by
  decide

/-- C5, amended: with a success status (`OCI_SUCCESS` or
`OCI_SUCCESS_WITH_INFO`) `dpiError__check` returns success, makes no native
call and leaves the error structure and the connection exactly as they were,
so `dpiError__getInfo` reports afterwards what it reported before. -/
theorem dpiError__check_success_leaves_state (p : Platform) (oci : OCI) (error : dpiError)
    (status : Int) (conn : Option dpiConn) (action : String)
    (hok : status = OCI_SUCCESS ∨ status = OCI_SUCCESS_WITH_INFO) :
    (dpiError__check p oci error status conn action).ret = DPI_SUCCESS ∧
      (dpiError__check p oci error status conn action).error = error ∧
      (dpiError__check p oci error status conn action).conn = conn ∧
      (dpiError__check p oci error status conn action).calls = [] ∧
      dpiError__getInfo (dpiError__check p oci error status conn action).error =
        dpiError__getInfo error := by
  simp [dpiError__check, hok]

/-- Witness of the amended C5: a success-with-info status after the failing
call with code 3113. -/
theorem dpiError__check_success_leaves_state_witness :
    (OCI_SUCCESS_WITH_INFO = OCI_SUCCESS ∨ OCI_SUCCESS_WITH_INFO = OCI_SUCCESS_WITH_INFO) ∧
      (dpiError__check examplePlatform (exampleOCI 0 []) priorFailure OCI_SUCCESS_WITH_INFO
        (some exampleConn) "fetch").ret = DPI_SUCCESS ∧
      (dpiError__check examplePlatform (exampleOCI 0 []) priorFailure OCI_SUCCESS_WITH_INFO
        (some exampleConn) "fetch").error = priorFailure :=
  ⟨by decide,
    (dpiError__check_success_leaves_state examplePlatform (exampleOCI 0 []) priorFailure
      OCI_SUCCESS_WITH_INFO (some exampleConn) "fetch" (by decide)).1,
    (dpiError__check_success_leaves_state examplePlatform (exampleOCI 0 []) priorFailure
      OCI_SUCCESS_WITH_INFO (some exampleConn) "fetch" (by decide)).2.1⟩

/-- C6: `dpiError__check` returns success exactly when the status is
`OCI_SUCCESS` or `OCI_SUCCESS_WITH_INFO`, and failure exactly when it is any
other status, whichever branch is taken. -/
theorem dpiError__check_ret (p : Platform) (oci : OCI) (error : dpiError)
    (status : Int) (conn : Option dpiConn) (action : String) :
    ((dpiError__check p oci error status conn action).ret = DPI_SUCCESS ↔
        (status = OCI_SUCCESS ∨ status = OCI_SUCCESS_WITH_INFO)) ∧
      ((dpiError__check p oci error status conn action).ret = DPI_FAILURE ↔
        ¬ (status = OCI_SUCCESS ∨ status = OCI_SUCCESS_WITH_INFO)) := by
  have hne : DPI_SUCCESS ≠ DPI_FAILURE := by decide
  by_cases hok : status = OCI_SUCCESS ∨ status = OCI_SUCCESS_WITH_INFO
  · have hret : (dpiError__check p oci error status conn action).ret = DPI_SUCCESS := by
      simp [dpiError__check, hok]
    rw [hret]
    exact ⟨⟨fun _ => hok, fun _ => rfl⟩, ⟨fun h => absurd h hne, fun h => absurd hok h⟩⟩
  · have hret : (dpiError__check p oci error status conn action).ret = DPI_FAILURE := by
      unfold dpiError__check
      rw [if_neg hok]
      split
      · rfl
      · split
        · rfl
        · split <;> rfl
    rw [hret]
    exact ⟨⟨fun h => absurd h.symm hne, fun h => absurd h hok⟩, ⟨fun _ => hok, fun _ => rfl⟩⟩

/-- C7: for a non-success status the error kind recorded follows a fixed
precedence. With the invalid-handle sentinel it is `DPI_ERR_INVALID_HANDLE`,
with or without a native error handle, and no native call is made; otherwise,
without a native error handle, it is `DPI_ERR_ERR_NOT_INITIALIZED` and no
native call is made; otherwise, when the error query does not return
`OCI_SUCCESS`, it is `DPI_ERR_GET_FAILED` and the buffer's code is 0 whatever
the query wrote. In all three cases the connection is left as it was. -/
theorem dpiError__check_special_cases (p : Platform) (oci : OCI) (error : dpiError)
    (status : Int) (conn : Option dpiConn) (action : String)
    (hs : status ≠ OCI_SUCCESS) (hi : status ≠ OCI_SUCCESS_WITH_INFO) :
    (status = OCI_INVALID_HANDLE →
        (dpiError__check p oci error status conn action).error.buffer.dpiErrorNum =
            p.DPI_ERR_INVALID_HANDLE ∧
          (dpiError__check p oci error status conn action).calls = [] ∧
          (dpiError__check p oci error status conn action).conn = conn) ∧
      (status ≠ OCI_INVALID_HANDLE → error.handle = none →
        (dpiError__check p oci error status conn action).error.buffer.dpiErrorNum =
            p.DPI_ERR_ERR_NOT_INITIALIZED ∧
          (dpiError__check p oci error status conn action).calls = [] ∧
          (dpiError__check p oci error status conn action).conn = conn) ∧
      (status ≠ OCI_INVALID_HANDLE → error.handle ≠ none →
        oci.errorGetStatus ≠ OCI_SUCCESS →
        (dpiError__check p oci error status conn action).error.buffer.dpiErrorNum =
            p.DPI_ERR_GET_FAILED ∧
          (dpiError__check p oci error status conn action).error.buffer.code = 0 ∧
          (dpiError__check p oci error status conn action).calls = [OCICall.OCIErrorGet] ∧
          (dpiError__check p oci error status conn action).conn = conn) := by
  refine ⟨?_, ?_, ?_⟩
  · intro hv
    subst hv
    simp [dpiError__check, dpiError__set, hs, hi]
  · intro hv hh
    simp [dpiError__check, dpiError__set, hs, hi, hv, hh]
  · intro hv hh hg
    simp [dpiError__check, dpiError__set, hs, hi, hv, hh, hg]

/-- Witness of C7: the invalid-handle sentinel on a context without error
handle, another failing status on that context, and a failing error query that
wrote code 1234. -/
theorem dpiError__check_special_cases_witness :
    ((dpiError__check examplePlatform (exampleOCI 3113 [69, 0])
          { exampleError 873 16 with handle := none } OCI_INVALID_HANDLE (some exampleConn)
          "execute").error.buffer.dpiErrorNum = 1002 ∧
        (dpiError__check examplePlatform (exampleOCI 3113 [69, 0])
          { exampleError 873 16 with handle := none } OCI_INVALID_HANDLE (some exampleConn)
          "execute").calls = []) ∧
      ((dpiError__check examplePlatform (exampleOCI 3113 [69, 0])
          { exampleError 873 16 with handle := none } (-1) (some exampleConn)
          "execute").error.buffer.dpiErrorNum = 1003 ∧
        (dpiError__check examplePlatform (exampleOCI 3113 [69, 0])
          { exampleError 873 16 with handle := none } (-1) (some exampleConn)
          "execute").conn = some exampleConn) ∧
      ((failingOCI 1234).errorGetCode = 1234 ∧
        (dpiError__check examplePlatform (failingOCI 1234) (exampleError 873 16) (-1)
          (some exampleConn) "execute").error.buffer.dpiErrorNum = 1004 ∧
        (dpiError__check examplePlatform (failingOCI 1234) (exampleError 873 16) (-1)
          (some exampleConn) "execute").error.buffer.code = 0) :=
  ⟨⟨((dpiError__check_special_cases examplePlatform (exampleOCI 3113 [69, 0])
        { exampleError 873 16 with handle := none } OCI_INVALID_HANDLE (some exampleConn)
        "execute" (by decide) (by decide)).1 (by decide)).1,
     ((dpiError__check_special_cases examplePlatform (exampleOCI 3113 [69, 0])
        { exampleError 873 16 with handle := none } OCI_INVALID_HANDLE (some exampleConn)
        "execute" (by decide) (by decide)).1 (by decide)).2.1⟩,
   ⟨((dpiError__check_special_cases examplePlatform (exampleOCI 3113 [69, 0])
        { exampleError 873 16 with handle := none } (-1) (some exampleConn)
        "execute" (by decide) (by decide)).2.1 (by decide) (by decide)).1,
     ((dpiError__check_special_cases examplePlatform (exampleOCI 3113 [69, 0])
        { exampleError 873 16 with handle := none } (-1) (some exampleConn)
        "execute" (by decide) (by decide)).2.1 (by decide) (by decide)).2.2⟩,
   ⟨by decide,
     ((dpiError__check_special_cases examplePlatform (failingOCI 1234) (exampleError 873 16)
        (-1) (some exampleConn) "execute" (by decide) (by decide)).2.2 (by decide)
        (by decide) (by decide)).1,
     ((dpiError__check_special_cases examplePlatform (failingOCI 1234) (exampleError 873 16)
        (-1) (some exampleConn) "execute" (by decide) (by decide)).2.2 (by decide)
        (by decide) (by decide)).2.1⟩⟩

/-- C8: whatever the buffer held, `dpiError__set` returns failure and leaves
the buffer with code 0, offset 0, `isRecoverable` false, the UTF-8 charset
name as encoding, the given action and the given error kind. -/
theorem dpiError__set_fields (p : Platform) (error : dpiError) (action : String)
    (errorNum : Int) (varArgs : List Arg) :
    (dpiError__set p error action errorNum varArgs).ret = DPI_FAILURE ∧
      (dpiError__set p error action errorNum varArgs).error.buffer.code = 0 ∧
      (dpiError__set p error action errorNum varArgs).error.buffer.offset = 0 ∧
      (dpiError__set p error action errorNum varArgs).error.buffer.isRecoverable = false ∧
      (dpiError__set p error action errorNum varArgs).error.buffer.encoding =
        p.DPI_CHARSET_NAME_UTF8 ∧
      (dpiError__set p error action errorNum varArgs).error.buffer.action = action ∧
      (dpiError__set p error action errorNum varArgs).error.buffer.dpiErrorNum = errorNum :=
  ⟨rfl, rfl, rfl, rfl, rfl, rfl, rfl⟩

/-- The `strlen` of a text without zero byte that is followed by a zero byte
is the length of the text. -/
theorem strlen_append_zero (rest : List Nat) :
    ∀ l : List Nat, (∀ c ∈ l, c ≠ 0) → strlen (l ++ 0 :: rest) = l.length
  | [], _ => by simp [strlen]
  | c :: l, h => by
    have hc : c ≠ 0 := h c (List.mem_cons_self c l)
    have ih := strlen_append_zero rest l (fun d hd => h d (List.mem_cons_of_mem c hd))
    simp [strlen, hc, ih]

/-- C9: when the full expansion of the message is at least as long as the
message array, `dpiError__set` stores the expansion cut to one byte less than
the array, followed by a zero byte, but records as `messageLength` the length
of the full expansion, which is not less than the size of the array and
exceeds the length of the stored text. -/
theorem dpiError__set_messageLength_overlong (p : Platform) (error : dpiError)
    (action : String) (errorNum : Int) (varArgs : List Arg)
    (hcap : 0 < error.buffer.message.length)
    (hlong : error.buffer.message.length ≤
      (p.vformat (p.dpiErrorMessages (errorNum - p.DPI_ERR_NO_ERR)) varArgs).length)
    (h32 : (p.vformat (p.dpiErrorMessages (errorNum - p.DPI_ERR_NO_ERR)) varArgs).length
      < 2 ^ 32)
    (hnz : ∀ c ∈ p.vformat (p.dpiErrorMessages (errorNum - p.DPI_ERR_NO_ERR)) varArgs,
      c ≠ 0) :
    (dpiError__set p error action errorNum varArgs).error.buffer.message =
        (p.vformat (p.dpiErrorMessages (errorNum - p.DPI_ERR_NO_ERR)) varArgs).take
          (error.buffer.message.length - 1) ++ [0] ∧
      strlen (dpiError__set p error action errorNum varArgs).error.buffer.message =
        error.buffer.message.length - 1 ∧
      (dpiError__set p error action errorNum varArgs).error.buffer.messageLength =
        (p.vformat (p.dpiErrorMessages (errorNum - p.DPI_ERR_NO_ERR)) varArgs).length ∧
      error.buffer.message.length ≤
        (dpiError__set p error action errorNum varArgs).error.buffer.messageLength ∧
      strlen (dpiError__set p error action errorNum varArgs).error.buffer.message <
        (dpiError__set p error action errorNum varArgs).error.buffer.messageLength := by
  generalize hf : p.vformat (p.dpiErrorMessages (errorNum - p.DPI_ERR_NO_ERR)) varArgs = f
    at hlong h32 hnz
  have hne : error.buffer.message.length ≠ 0 := by omega
  have htake : (f.take (error.buffer.message.length - 1)).length =
      error.buffer.message.length - 1 := by
    rw [List.length_take]; omega
  have hmsg : (dpiError__set p error action errorNum varArgs).error.buffer.message =
      f.take (error.buffer.message.length - 1) ++ [0] := by
    simp only [dpiError__set, vsnprintf, hf, if_neg hne, writeBytes]
    have hlen : (f.take (error.buffer.message.length - 1) ++ [0]).length =
        error.buffer.message.length := by
      rw [List.length_append, htake]; simp; omega
    rw [List.take_of_length_le (by omega), List.drop_of_length_le (by omega)]
    simp
  have hstr : strlen (dpiError__set p error action errorNum varArgs).error.buffer.message =
      error.buffer.message.length - 1 := by
    rw [hmsg, strlen_append_zero [] _ (fun c hc => hnz c (List.mem_of_mem_take hc)), htake]
  have hml : (dpiError__set p error action errorNum varArgs).error.buffer.messageLength =
      f.length := by
    simp only [dpiError__set, vsnprintf, hf, if_neg hne]
    have hmod : ((f.length : Int) % 2 ^ 32) = (f.length : Int) :=
      Int.emod_eq_of_lt (by omega) (by exact_mod_cast h32)
    rw [hmod]; simp
  refine ⟨hmsg, hstr, hml, ?_, ?_⟩
  · rw [hml]; exact hlong
  · rw [hml, hstr]; omega

/-- In the example platform the invalid-handle message expands to the text
"invalid ", the argument, and " handle". -/
theorem vformat_invalid_handle (s : String) :
    examplePlatform.vformat (examplePlatform.dpiErrorMessages
        (1002 - examplePlatform.DPI_ERR_NO_ERR)) [Arg.str s] =
      ("invalid ".toList ++ (s.toList ++ " handle".toList)).map Char.toNat := by
  rfl

/-- Witness of C9: the invalid-handle message with an argument of 4000
characters, set into a message array of 3072 bytes: 3071 characters are stored
and the length recorded is 4015. -/
theorem dpiError__set_messageLength_overlong_witness :
    0 < (exampleError 873 3072).buffer.message.length ∧
      (exampleError 873 3072).buffer.message.length ≤
        (examplePlatform.vformat (examplePlatform.dpiErrorMessages
          (1002 - examplePlatform.DPI_ERR_NO_ERR)) [Arg.str (longArg 4000)]).length ∧
      (exampleError 873 3072).buffer.message.length = 3072 ∧
      strlen (dpiError__set examplePlatform (exampleError 873 3072) "connect" 1002
        [Arg.str (longArg 4000)]).error.buffer.message = 3071 ∧
      (dpiError__set examplePlatform (exampleError 873 3072) "connect" 1002
        [Arg.str (longArg 4000)]).error.buffer.messageLength = 4015 := by
  have harg : (longArg 4000).toList = List.replicate 4000 'x' := rfl
  have hlen : (examplePlatform.vformat (examplePlatform.dpiErrorMessages
      (1002 - examplePlatform.DPI_ERR_NO_ERR)) [Arg.str (longArg 4000)]).length = 4015 := by
    rw [vformat_invalid_handle, List.length_map, List.length_append, List.length_append,
      harg, List.length_replicate]
    rfl
  have hcap : (exampleError 873 3072).buffer.message.length = 3072 :=
    List.length_replicate 3072 0
  have hnz : ∀ c ∈ examplePlatform.vformat (examplePlatform.dpiErrorMessages
      (1002 - examplePlatform.DPI_ERR_NO_ERR)) [Arg.str (longArg 4000)], c ≠ 0 := by
    rw [vformat_invalid_handle, harg]
    intro c hc
    simp only [List.map_append, List.mem_append, List.mem_map] at hc
    rcases hc with ⟨a, ha, rfl⟩ | ⟨a, ha, rfl⟩ | ⟨a, ha, rfl⟩
    · revert a; decide
    · rw [(List.mem_replicate.mp ha).2]; decide
    · revert a; decide
  have h := dpiError__set_messageLength_overlong examplePlatform (exampleError 873 3072)
    "connect" 1002 [Arg.str (longArg 4000)] (by omega) (by omega) (by omega) hnz
  refine ⟨by omega, by omega, hcap, ?_, ?_⟩
  · rw [h.2.1, hcap]
  · rw [h.2.2.1, hlen]

/-- The entry guard returns failure exactly for a handle of another kind or a
destroyed handle, whatever the name of the function and the context. -/
theorem dpiGen__startPublicFn_ret {α : Type} (p : Platform) (handle : dpiHandle α)
    (typeNum : dpiHandleTypeNum) (fnName : String) (context : dpiError) :
    (dpiGen__startPublicFn p handle typeNum fnName context).ret =
      if handle.typeNum = typeNum ∧ handle.base.destroyed = false then DPI_SUCCESS
      else DPI_FAILURE := by
  unfold dpiGen__startPublicFn
  split <;> rfl

/-- An attribute read whose entry guard fails returns failure, makes no
native call and leaves the output variable and the connections as they
were. -/
theorem dpiEnqOptions__getAttrValue_guard {α : Type} (p : Platform) (oci : OCI)
    (attrs : OCIAttrOutcome) (written : Option α) (heap : Nat → dpiConn) (context : dpiError)
    (options : dpiHandle dpiEnqOptions) (attributeNum : OCIAttribute) (fnName : String)
    (value : α)
    (hguard : (dpiGen__startPublicFn p options dpiHandleTypeNum.DPI_HTYPE_ENQ_OPTIONS fnName
      context).ret < 0) :
    (dpiEnqOptions__getAttrValue p oci attrs written heap context options attributeNum fnName
        value).ret = DPI_FAILURE ∧
      (dpiEnqOptions__getAttrValue p oci attrs written heap context options attributeNum
        fnName value).calls = [] ∧
      (dpiEnqOptions__getAttrValue p oci attrs written heap context options attributeNum
        fnName value).value = value ∧
      (dpiEnqOptions__getAttrValue p oci attrs written heap context options attributeNum
        fnName value).heap = heap := by
  simp only [dpiEnqOptions__getAttrValue, if_pos hguard, and_self]

/-- An attribute write whose entry guard fails returns failure, makes no
native call, hands no value to the native library and leaves the connections
as they were. -/
theorem dpiEnqOptions__setAttrValue_guard {α : Type} (p : Platform) (oci : OCI)
    (attrs : OCIAttrOutcome) (heap : Nat → dpiConn) (context : dpiError)
    (options : dpiHandle dpiEnqOptions) (attributeNum : OCIAttribute) (fnName : String)
    (value : α)
    (hguard : (dpiGen__startPublicFn p options dpiHandleTypeNum.DPI_HTYPE_ENQ_OPTIONS fnName
      context).ret < 0) :
    (dpiEnqOptions__setAttrValue p oci attrs heap context options attributeNum fnName
        value).ret = DPI_FAILURE ∧
      (dpiEnqOptions__setAttrValue p oci attrs heap context options attributeNum fnName
        value).calls = [] ∧
      (dpiEnqOptions__setAttrValue p oci attrs heap context options attributeNum fnName
        value).passed = none ∧
      (dpiEnqOptions__setAttrValue p oci attrs heap context options attributeNum fnName
        value).heap = heap := by
  simp only [dpiEnqOptions__setAttrValue, if_pos hguard, and_self]

/-- C11: when the entry guard fails for the handle, each of the six public
operations returns failure, makes no native call, leaves its output
parameter as it was (the write operations hand nothing to the native
library) and leaves every connection, hence its `dropSession` flag, as it
was. -/
theorem public_operations_guard_failure (p : Platform) (oci : OCI) (attrs : OCIAttrOutcome)
    (heap : Nat → dpiConn) (context : dpiError) (options : dpiHandle dpiEnqOptions)
    (attr : dpiHandle dpiObjectAttr) (text : String × Nat) (ociValue visibility : Nat)
    (mode : Nat) (transformation : String) (valueLength : Nat) (info : dpiObjectAttrInfo)
    (hoptions : ∀ fnName, (dpiGen__startPublicFn p options
      dpiHandleTypeNum.DPI_HTYPE_ENQ_OPTIONS fnName context).ret < 0)
    (hattr : ∀ fnName, (dpiGen__startPublicFn p attr
      dpiHandleTypeNum.DPI_HTYPE_OBJECT_ATTR fnName context).ret < 0) :
    ((dpiEnqOptions_getTransformation p oci attrs heap context options text).ret = DPI_FAILURE ∧
      (dpiEnqOptions_getTransformation p oci attrs heap context options text).calls = [] ∧
      (dpiEnqOptions_getTransformation p oci attrs heap context options text).value = text ∧
      (dpiEnqOptions_getTransformation p oci attrs heap context options text).heap = heap) ∧
    ((dpiEnqOptions_getVisibility p oci attrs heap context options ociValue visibility).ret
        = DPI_FAILURE ∧
      (dpiEnqOptions_getVisibility p oci attrs heap context options ociValue visibility).calls
        = [] ∧
      (dpiEnqOptions_getVisibility p oci attrs heap context options ociValue visibility).value
        = visibility ∧
      (dpiEnqOptions_getVisibility p oci attrs heap context options ociValue visibility).heap
        = heap) ∧
    ((dpiEnqOptions_setDeliveryMode p oci attrs heap context options mode).ret = DPI_FAILURE ∧
      (dpiEnqOptions_setDeliveryMode p oci attrs heap context options mode).calls = [] ∧
      (dpiEnqOptions_setDeliveryMode p oci attrs heap context options mode).passed = none ∧
      (dpiEnqOptions_setDeliveryMode p oci attrs heap context options mode).heap = heap) ∧
    ((dpiEnqOptions_setTransformation p oci attrs heap context options transformation
        valueLength).ret = DPI_FAILURE ∧
      (dpiEnqOptions_setTransformation p oci attrs heap context options transformation
        valueLength).calls = [] ∧
      (dpiEnqOptions_setTransformation p oci attrs heap context options transformation
        valueLength).passed = none ∧
      (dpiEnqOptions_setTransformation p oci attrs heap context options transformation
        valueLength).heap = heap) ∧
    ((dpiEnqOptions_setVisibility p oci attrs heap context options visibility).ret
        = DPI_FAILURE ∧
      (dpiEnqOptions_setVisibility p oci attrs heap context options visibility).calls = [] ∧
      (dpiEnqOptions_setVisibility p oci attrs heap context options visibility).passed = none ∧
      (dpiEnqOptions_setVisibility p oci attrs heap context options visibility).heap = heap) ∧
    ((dpiObjectAttr_getInfo p heap context attr info).ret = DPI_FAILURE ∧
      (dpiObjectAttr_getInfo p heap context attr info).calls = [] ∧
      (dpiObjectAttr_getInfo p heap context attr info).info = info ∧
      (dpiObjectAttr_getInfo p heap context attr info).heap = heap) := by
  refine ⟨?_, ?_, ?_, ?_, ?_, ?_⟩
  · exact dpiEnqOptions__getAttrValue_guard p oci attrs _ heap context options _ _ text
      (hoptions _)
  · obtain ⟨hret, hcalls, _, hheap⟩ := dpiEnqOptions__getAttrValue_guard p oci attrs
      (attrs.getNumber OCIAttribute.OCI_ATTR_VISIBILITY) heap context options
      OCIAttribute.OCI_ATTR_VISIBILITY "dpiEnqOptions_getVisibility" ociValue (hoptions _)
    have hneg : (dpiEnqOptions__getAttrValue p oci attrs
        (attrs.getNumber OCIAttribute.OCI_ATTR_VISIBILITY) heap context options
        OCIAttribute.OCI_ATTR_VISIBILITY "dpiEnqOptions_getVisibility" ociValue).ret < 0 := by
      rw [hret]; decide
    simp only [dpiEnqOptions_getVisibility, if_pos hneg, hcalls, hheap, and_self]
  · exact dpiEnqOptions__setAttrValue_guard p oci attrs heap context options _ _ _ (hoptions _)
  · exact dpiEnqOptions__setAttrValue_guard p oci attrs heap context options _ _ _ (hoptions _)
  · exact dpiEnqOptions__setAttrValue_guard p oci attrs heap context options _ _ _ (hoptions _)
  · simp only [dpiObjectAttr_getInfo, if_pos (hattr _), and_self]

/-- Witness of C11: the six operations on a destroyed enqueue options handle
and on a handle of the wrong kind, with native calls that would succeed. -/
theorem public_operations_guard_failure_witness :
    (∀ fnName, (dpiGen__startPublicFn examplePlatform staleOptions
        dpiHandleTypeNum.DPI_HTYPE_ENQ_OPTIONS fnName (exampleError 873 16)).ret < 0) ∧
      (∀ fnName, (dpiGen__startPublicFn examplePlatform wrongKindAttr
        dpiHandleTypeNum.DPI_HTYPE_OBJECT_ATTR fnName (exampleError 873 16)).ret < 0) ∧
      (dpiEnqOptions_getVisibility examplePlatform (exampleOCI 0 []) exampleAttrs exampleHeap
        (exampleError 873 16) staleOptions 0 1).value = 1 ∧
      (dpiEnqOptions_getVisibility examplePlatform (exampleOCI 0 []) exampleAttrs exampleHeap
        (exampleError 873 16) staleOptions 0 1).ret = DPI_FAILURE ∧
      (dpiObjectAttr_getInfo examplePlatform exampleHeap (exampleError 873 16) wrongKindAttr
        exampleInfo).info = exampleInfo :=
  have h1 : ∀ fnName, (dpiGen__startPublicFn examplePlatform staleOptions
      dpiHandleTypeNum.DPI_HTYPE_ENQ_OPTIONS fnName (exampleError 873 16)).ret < 0 :=
    fun fnName => by rw [dpiGen__startPublicFn_ret]; decide
  have h2 : ∀ fnName, (dpiGen__startPublicFn examplePlatform wrongKindAttr
      dpiHandleTypeNum.DPI_HTYPE_OBJECT_ATTR fnName (exampleError 873 16)).ret < 0 :=
    fun fnName => by rw [dpiGen__startPublicFn_ret]; decide
  ⟨h1, h2,
    (public_operations_guard_failure examplePlatform (exampleOCI 0 []) exampleAttrs
      exampleHeap (exampleError 873 16) staleOptions wrongKindAttr ("", 0) 0 1 0 "" 0
      exampleInfo h1 h2).2.1.2.2.1,
    (public_operations_guard_failure examplePlatform (exampleOCI 0 []) exampleAttrs
      exampleHeap (exampleError 873 16) staleOptions wrongKindAttr ("", 0) 0 1 0 "" 0
      exampleInfo h1 h2).2.1.1,
    (public_operations_guard_failure examplePlatform (exampleOCI 0 []) exampleAttrs
      exampleHeap (exampleError 873 16) staleOptions wrongKindAttr ("", 0) 0 1 0 "" 0
      exampleInfo h1 h2).2.2.2.2.2.2.2.1⟩

end Odpi
